import Mathlib

/-!
Shallow embedding of src/smolder-proto/src/smb.rs (an SMB1/CIFS client
skeleton) and verification of its specification claims.

Byte streams are modelled as `List Nat` with each element a byte value.
The Rust `Read`/`Write` stream operations become pure functions: a writer
produces a byte list, a reader consumes a prefix of a byte list and
returns the parsed value together with the remaining bytes (`none` models
an io error from a short read). Machine integers are `Nat` with explicit
`% 2 ^ w` where the source truncates. Fallible operations return
`Option` or `Except`.
-/

/-- Bytes of an ASCII string, as `str::as_bytes` yields for ASCII text. -/
def strBytes (s : String) : List Nat :=
  s.data.map Char.toNat

-- Constants from smb.rs

def SMB_DIALECT : String := "NT LM 0.12"

def SMB_COM_CREATE : Nat := 0x03
def SMB_COM_CLOSE : Nat := 0x04
def SMB_COM_ECHO : Nat := 0x2B
def SMB_COM_NEGOTIATE : Nat := 0x72
def SMB_COM_SESSION_SETUP_ANDX : Nat := 0x73
def SMB_COM_TREE_CONNECT_ANDX : Nat := 0x75

def FLAGS1_LOCK_AND_READ_OK : Nat := 0x01
def FLAGS1_PATHCASELESS : Nat := 0x08
def FLAGS2_LONG_NAMES : Nat := 0x0001
def FLAGS2_EAS : Nat := 0x0002
def FLAGS2_SECURITY_SIGNATURE : Nat := 0x0004
def FLAGS2_EXTENDED_SECURITY : Nat := 0x0800
def FLAGS2_UNICODE : Nat := 0x8000

/-- Little-endian encoding of a 16-bit value, as `write_u16::<LittleEndian>`. -/
def u16le (n : Nat) : List Nat :=
  [n % 256, n / 256 % 256]

/-- Little-endian encoding of a 32-bit value, as `write_u32::<LittleEndian>`. -/
def u32le (n : Nat) : List Nat :=
  [n % 256, n / 256 % 256, n / 65536 % 256, n / 16777216 % 256]

/-- `read_u8`: one byte from the stream. -/
def readU8 (l : List Nat) : Option (Nat × List Nat) :=
  match l with
  | [] => none
  | b :: rest => some (b, rest)

/-- `read_exact` into an `n`-byte buffer. -/
def readBytes (n : Nat) (l : List Nat) : Option (List Nat × List Nat) :=
  if n ≤ l.length then some (l.take n, l.drop n) else none

/-- `read_u16::<LittleEndian>`. -/
def readU16le (l : List Nat) : Option (Nat × List Nat) :=
  match l with
  | b0 :: b1 :: rest => some (b0 + 256 * b1, rest)
  | _ => none

/-- `read_u32::<LittleEndian>`. -/
def readU32le (l : List Nat) : Option (Nat × List Nat) :=
  match l with
  | b0 :: b1 :: b2 :: b3 :: rest =>
      some (b0 + 256 * b1 + 65536 * b2 + 16777216 * b3, rest)
  | _ => none

/-- The error taxonomy `SMBError` from smb.rs. The first variant is the
io-error case of the source, its payload not modelled. -/
inductive SMBError where
  | Io : SMBError
  | Protocol : String → SMBError
  | Authentication : String → SMBError
  | InvalidResponse : String → SMBError
deriving Repr, DecidableEq

/-- The `SMBHeader` struct: the fixed preamble fields of every message. -/
structure SMBHeader where
  protocol : List Nat
  command : Nat
  status : Nat
  flags : Nat
  flags2 : Nat
  pid_high : Nat
  security_features : List Nat
  tid : Nat
  pid : Nat
  uid : Nat
  mid : Nat
deriving Repr, DecidableEq

/-- Well-formedness of a header value: each field fits the machine type
it has in the Rust struct (`[u8; 4]`, `u8`, `u32`, `u16`, `[u8; 8]`). -/
def SMBHeader.Valid (h : SMBHeader) : Prop :=
  h.protocol.length = 4 ∧ (∀ b ∈ h.protocol, b < 256) ∧
  h.command < 256 ∧ h.status < 4294967296 ∧ h.flags < 256 ∧
  h.flags2 < 65536 ∧ h.pid_high < 65536 ∧
  h.security_features.length = 8 ∧ (∀ b ∈ h.security_features, b < 256) ∧
  h.tid < 65536 ∧ h.pid < 65536 ∧ h.uid < 65536 ∧ h.mid < 65536

instance (h : SMBHeader) : Decidable h.Valid := by
  unfold SMBHeader.Valid
  exact inferInstance

/-- `SMBHeader::new(command)`: the fixed request header. The ambient
`std::process::id() as u16` is modelled by the extra `pid` argument with
the `as u16` truncation made explicit. -/
def SMBHeader.new (command : Nat) (pid : Nat) : SMBHeader :=
  { protocol := [0xFF, 0x53, 0x4D, 0x42]
    command := command
    status := 0
    flags := FLAGS1_PATHCASELESS
    flags2 := Nat.lor FLAGS2_UNICODE FLAGS2_EXTENDED_SECURITY
    pid_high := 0
    security_features := List.replicate 8 0
    tid := 0
    pid := pid % 65536
    uid := 0
    mid := 0 }

/-- `SMBHeader::write`: serialize the header, field by field, in source
order. -/
def SMBHeader.write (h : SMBHeader) : List Nat :=
  h.protocol ++ [h.command] ++ u32le h.status ++ [h.flags] ++
    u16le h.flags2 ++ u16le h.pid_high ++ h.security_features ++
    u16le h.tid ++ u16le h.pid ++ u16le h.uid ++ u16le h.mid

/-- `SMBHeader::read`: parse the header fields, in source order, from
the front of the stream; the remaining stream bytes are returned as
well. `none` models the io error of a short read. No field, the
4 signature bytes included, is validated. -/
def SMBHeader.read (l : List Nat) : Option (SMBHeader × List Nat) := do
  let (protocol, l1) ← readBytes 4 l
  let (command, l2) ← readU8 l1
  let (status, l3) ← readU32le l2
  let (flags, l4) ← readU8 l3
  let (flags2, l5) ← readU16le l4
  let (pid_high, l6) ← readU16le l5
  let (security_features, l7) ← readBytes 8 l6
  let (tid, l8) ← readU16le l7
  let (pid, l9) ← readU16le l8
  let (uid, l10) ← readU16le l9
  let (mid, l11) ← readU16le l10
  some ({ protocol := protocol, command := command, status := status,
          flags := flags, flags2 := flags2, pid_high := pid_high,
          security_features := security_features, tid := tid, pid := pid,
          uid := uid, mid := mid }, l11)

-- Round-trip helper lemmas

theorem readBytes_append (n : Nat) (p : List Nat) (hp : p.length = n)
    (rest : List Nat) :
    readBytes n (p ++ rest) = some (p, rest) := by
  subst hp
  unfold readBytes
  rw [if_pos (by simp)]
  rw [List.take_left, List.drop_left]

theorem readU8_cons (b : Nat) (rest : List Nat) :
    readU8 (b :: rest) = some (b, rest) := rfl

theorem readU16le_u16le (n : Nat) (hn : n < 65536) (rest : List Nat) :
    readU16le (u16le n ++ rest) = some (n, rest) := by
  simp only [u16le, List.cons_append, List.nil_append, readU16le,
    Option.some.injEq, Prod.mk.injEq, and_true]
  omega

theorem readU32le_u32le (n : Nat) (hn : n < 4294967296) (rest : List Nat) :
    readU32le (u32le n ++ rest) = some (n, rest) := by
  simp only [u32le, List.cons_append, List.nil_append, readU32le,
    Option.some.injEq, Prod.mk.injEq, and_true]
  omega

theorem readU16le_u16le_nil (n : Nat) (hn : n < 65536) :
    readU16le (u16le n) = some (n, []) := by
  have h := readU16le_u16le n hn []
  simpa using h

/-- The serialized header is always 30 bytes long for headers built by
`SMBHeader::new` (4 signature bytes, 1 command, 4 status, 1 flags,
2 flags2, 2 pid high, 8 security features, 2 tid, 2 pid, 2 uid, 2 mid). -/
theorem write_new_length (c p : Nat) :
    (SMBHeader.new c p).write.length = 30 := by
  simp [SMBHeader.new, SMBHeader.write, u16le, u32le]

-- SMB client model

/-- The mutable state of `SMBClient` (the owned `TcpStream` is the
transport and is modelled separately: each operation returns the bytes
it writes to the stream). The field values are those set by
`SMBClient::new` after a successful connect. -/
structure SMBClient where
  session_key : List Nat
  uid : Nat
  capabilities : Nat
  max_buffer_size : Nat
  security_mode : Nat
deriving Repr, DecidableEq

/-- The client state produced by `SMBClient::new`. -/
def SMBClient.init : SMBClient :=
  { session_key := [], uid := 0, capabilities := 0,
    max_buffer_size := 0, security_mode := 0 }

/-- The negotiate data block built by `negotiate_protocol`: for each
dialect in `vec![SMB_DIALECT]`, a 0x02 buffer-format byte, the dialect
bytes, and a null terminator. -/
def negotiateData : List Nat :=
  [SMB_DIALECT].foldl (fun acc d => acc ++ [0x02] ++ strBytes d ++ [0x00]) []

/-- The exact bytes `negotiate_protocol` writes to the stream: header,
word count 0, little-endian byte count, data block. No transport length
prefix is written. -/
def negotiatePacket (pid : Nat) : List Nat :=
  (SMBHeader.new SMB_COM_NEGOTIATE pid).write ++
    [0] ++ u16le negotiateData.length ++ negotiateData

/-- `SMBClient::negotiate_protocol`: sends the negotiate packet, reads
and discards the response (parsing is a TODO in the source), returns
`Ok(())` with the client state unchanged. Result is (returned value,
client state after the call, bytes written to the stream). -/
def SMBClient.negotiate_protocol (c : SMBClient) (pid : Nat) :
    Except SMBError Unit × SMBClient × List Nat :=
  (Except.ok (), c, negotiatePacket pid)

/-- `SMBClient::session_setup`: the body is a TODO in the source; it
builds a header it never uses, returns `Ok(())`, writes nothing and
updates no field. -/
def SMBClient.session_setup (c : SMBClient)
    (username password domain : String) :
    Except SMBError Unit × SMBClient × List Nat :=
  (Except.ok (), c, [])

/-- `SMBClient::tree_connect`: the body is a TODO in the source; it
returns `Ok(0)` unconditionally, writes nothing and checks no state. -/
def SMBClient.tree_connect (c : SMBClient) (share : String) :
    Except SMBError Nat × SMBClient × List Nat :=
  (Except.ok 0, c, [])

/-- `SMBClient::create_file`: the body is a TODO in the source; it
returns `Ok(0)` unconditionally, writes nothing and checks no state. -/
def SMBClient.create_file (c : SMBClient) (tid : Nat) (filename : String) :
    Except SMBError Nat × SMBClient × List Nat :=
  (Except.ok 0, c, [])

/-- `SMBClient::close_file`: the body is a TODO in the source; it
returns `Ok(())` unconditionally, writes nothing and checks no state. -/
def SMBClient.close_file (c : SMBClient) (tid fid : Nat) :
    Except SMBError Unit × SMBClient × List Nat :=
  (Except.ok (), c, [])

/-- `SMBClient::echo`: the body is a TODO in the source; it returns
`Ok(Vec::new())` unconditionally and writes nothing. -/
def SMBClient.echo (c : SMBClient) (data : List Nat) :
    Except SMBError (List Nat) × SMBClient × List Nat :=
  (Except.ok [], c, [])

/-- `ntlm::compute_ntlm_hash`: the body is a TODO in the source; it
returns `Vec::new()`. -/
def ntlm.compute_ntlm_hash (password : String) : List Nat :=
  []

/-- `ntlm::compute_lm_hash`: the body is a TODO in the source; it
returns `Vec::new()`. -/
def ntlm.compute_lm_hash (password : String) : List Nat :=
  []

-- Claim theorems

/-- C1: decoding the byte sequence produced by encoding a header value
recovers every field: for every header whose signature is the fixed
bytes 0xFF, S, M, B and whose fields fit their machine widths,
`SMBHeader::read` applied to the output of `SMBHeader::write` yields a
header equal to the original (with the stream fully consumed). -/
theorem header_round_trip (h : SMBHeader)
    (hsig : h.protocol = [0xFF, 0x53, 0x4D, 0x42]) (hv : h.Valid) :
    SMBHeader.read h.write = some (h, []) := by
  obtain ⟨hp4, hpb, hc, hs, hf, hf2, hph, hsf8, hsfb, ht, hpid, hu, hm⟩ := hv
  simp only [SMBHeader.read, SMBHeader.write, List.append_assoc,
    List.cons_append, List.nil_append,
    readBytes_append _ _ hp4, readBytes_append _ _ hsf8, readU8_cons,
    readU32le_u32le _ hs, readU16le_u16le _ hf2, readU16le_u16le _ hph,
    readU16le_u16le _ ht, readU16le_u16le _ hpid, readU16le_u16le _ hu,
    readU16le_u16le_nil _ hm, Option.bind_eq_bind, Option.some_bind]

/-- A concrete header on which the round trip holds. -/
def sampleHeader : SMBHeader :=
  { protocol := [0xFF, 0x53, 0x4D, 0x42]
    command := 0x72
    status := 3221225581
    flags := 0x18
    flags2 := 0xC803
    pid_high := 7
    security_features := [1, 2, 3, 4, 5, 6, 7, 8]
    tid := 2051
    pid := 65535
    uid := 2048
    mid := 81 }

/-- C1 witness: the round trip at the concrete header `sampleHeader`. -/
theorem header_round_trip_witness :
    (sampleHeader.protocol = [0xFF, 0x53, 0x4D, 0x42] ∧ sampleHeader.Valid) ∧
      SMBHeader.read sampleHeader.write = some (sampleHeader, []) :=
  ⟨⟨by decide, by decide⟩, header_round_trip sampleHeader (by decide) (by decide)⟩

/-- C2: the claim says `SMBHeader::write` emits exactly 32 bytes, but
the encoder emits 30 bytes: the two reserved bytes of the SMB1 header
between the security-features field and tid are never written. Evaluated
here at the header `SMBHeader::new(SMB_COM_NEGOTIATE)`. -/
theorem header_write_length_thirty :
    (SMBHeader.new SMB_COM_NEGOTIATE 1234).write.length = 30 := by
  decide

/-- C3: the claim says decoding a buffer whose first four bytes are not
0xFF, S, M, B yields a bad-signature protocol error, but `SMBHeader::read`
checks nothing: on 32 zero bytes it succeeds, storing the zero signature
verbatim (and leaving two unread bytes, the header being parsed as
30 bytes). -/
theorem read_accepts_bad_signature :
    SMBHeader.read (List.replicate 32 0) =
      some ({ protocol := [0, 0, 0, 0], command := 0, status := 0,
              flags := 0, flags2 := 0, pid_high := 0,
              security_features := [0, 0, 0, 0, 0, 0, 0, 0], tid := 0,
              pid := 0, uid := 0, mid := 0 }, [0, 0]) := by
  decide

/-- C4: the claim says every message sent on the transport is prefixed
with a 4-byte big-endian length field whose first byte is zero, but
`negotiate_protocol` writes no length prefix at all: the first four
bytes put on the stream are the SMB signature 0xFF, S, M, B itself, and
0xFF is not zero. -/
theorem negotiate_sends_no_length_prefix :
    (SMBClient.negotiate_protocol SMBClient.init 1234).2.2.take 4 =
      [0xFF, 0x53, 0x4D, 0x42] := by
  decide

/-- C5: the claim says tree connect before authentication, create on an
unknown tid and close on an unknown fid fail with an out-of-sequence
error and write nothing; the three operations do write nothing, but each
returns success unconditionally (the bodies are TODO stubs with no state
check), here evaluated on the freshly constructed, unauthenticated
client. -/
theorem guards_return_success :
    SMBClient.tree_connect SMBClient.init "\\\\server\\share" =
        (Except.ok 0, SMBClient.init, []) ∧
      SMBClient.create_file SMBClient.init 7 "test.txt" =
        (Except.ok 0, SMBClient.init, []) ∧
      SMBClient.close_file SMBClient.init 7 9 =
        (Except.ok (), SMBClient.init, []) :=
  ⟨rfl, rfl, rfl⟩

/-- C6: the claim says the NTLM and LM hash functions return the 16-byte
published test vectors on the password "password", but both bodies are
TODO stubs returning the empty vector: each result has length 0, not 16. -/
theorem hash_stubs_empty :
    ntlm.compute_ntlm_hash "password" = [] ∧
      ntlm.compute_lm_hash "password" = [] :=
  ⟨rfl, rfl⟩

/-- C7: after the 30 header bytes, the negotiate packet is exactly word
count 0, then the little-endian byte count 12, then the single dialect
entry: buffer-format byte 0x02, the ASCII bytes of "NT LM 0.12", one
null terminator, and nothing further. -/
theorem negotiate_single_dialect (pid : Nat) :
    (negotiatePacket pid).drop 30 =
      [0x00, 0x0C, 0x00, 0x02, 0x4E, 0x54, 0x20, 0x4C, 0x4D, 0x20, 0x30,
       0x2E, 0x31, 0x32, 0x00] := by
  have h30 := write_new_length SMB_COM_NEGOTIATE pid
  unfold negotiatePacket
  rw [List.append_assoc, List.append_assoc, List.drop_left' h30]
  decide

/-- C8: the claim says echo returns the echoed bytes and fails with an
invalid-response error when their length differs from the payload, but
the body is a TODO stub: on the 1-byte payload it returns success with
the empty (0-byte) vector, sending nothing. -/
theorem echo_returns_empty :
    SMBClient.echo SMBClient.init [1] = (Except.ok [], SMBClient.init, []) :=
  rfl

/-- C9: the claim says a successful session setup updates the stored uid
and session key, but the body is a TODO stub: it returns success with
the client state identical to the pre-call state (uid still 0, session
key still empty), writing nothing. -/
theorem session_setup_updates_nothing :
    SMBClient.session_setup SMBClient.init "alice" "secret" "CORP" =
      (Except.ok (), SMBClient.init, []) :=
  rfl

/-- C10: for every command code (and every ambient process id), the
header built by `SMBHeader::new` carries flags 0x08 (path caseless),
flags2 0x8800 (Unicode or-ed with extended security), status 0, tid 0,
uid 0, mid 0, and the fixed signature bytes 0xFF, S, M, B. -/
theorem new_header_fixed_fields (command pid : Nat) :
    (SMBHeader.new command pid).flags = 0x08 ∧
      (SMBHeader.new command pid).flags2 = 0x8800 ∧
      (SMBHeader.new command pid).status = 0 ∧
      (SMBHeader.new command pid).tid = 0 ∧
      (SMBHeader.new command pid).uid = 0 ∧
      (SMBHeader.new command pid).mid = 0 ∧
      (SMBHeader.new command pid).protocol = [0xFF, 0x53, 0x4D, 0x42] :=
  ⟨rfl, by simp only [SMBHeader.new]; decide, rfl, rfl, rfl, rfl, rfl⟩
